import Mathlib

/-!
Verification of the Cloudflare-tail-events → OpenTelemetry span converter
(`CloudflareToOtelConverter` in `src/index.ts`).

The converter keeps a per-invocation table of spans, mutates it as tail
events arrive, and on the terminal `outcome` event flushes every span in
the table to a collector endpoint in the OTLP JSON shape.

Modelling conventions:
* JS runtime values stored in tags and log fields are modelled by `JsValue`;
  JS numbers are modelled as rationals, and `Number.isInteger` as having
  denominator 1.  The `other` constructor carries the value's textual
  representation (the result of `String(v)`), covering the `else` branch of
  `convertAttributeValue`.
* `Map<string, OtelSpan>` is modelled as an insertion-ordered list of spans;
  every insertion in the source uses `span.spanId` as the key, so the key is
  identified with the span's `spanId` field.  `Map.get` is first-match lookup
  and `Map.set` overwrites in place, preserving insertion order, exactly as
  in JS.
* Plain JS objects used as string-keyed records (`tags`, log `fields`) are
  insertion-ordered association lists; assignment overwrites an existing key
  in place and appends a new key at the end, as JS object semantics dictate.
* JS truthiness on optional strings (`x || y`, `x ? a : b`, `if (x)`) treats
  both `undefined` and the empty string as falsy; the helpers `jsOrElse`,
  `jsOrUndefined` and `jsTruthy` encode this.
* The only suspending operation is the `fetch` to the collector inside
  `sendToOtel`; its result is supplied as an oracle of type
  `Except String Unit` (`.error e` models a rejected fetch).  Handlers
  return `Except String _` so that an uncaught JS exception corresponds to
  an `.error` result; the `try`/`catch` in `sendToOtel` is the `match` that
  turns a failed fetch into an `.ok` result carrying a `console.error` line.
-/

namespace StwOtel

/-- JS runtime values stored in span tags and log fields. -/
inductive JsValue where
  | str (s : String)
  | num (q : ℚ)
  | bool (b : Bool)
  | arr (l : List JsValue)
  | other (textual : String)

/-- The OTLP "any value" union produced by `convertAttributeValue`:
string / int (carried as its decimal string) / double / bool / array. -/
inductive AttrValue where
  | stringValue (s : String)
  | intValue (s : String)
  | doubleValue (q : ℚ)
  | boolValue (b : Bool)
  | arrayValue (values : List AttrValue)

mutual

/-- `convertAttributeValue` from the source: `typeof`-dispatch over the value.
A number with `Number.isInteger(value)` (denominator 1) becomes an
`intValue` carrying `value.toString()`, i.e. the decimal string of the
integer; any other number becomes a `doubleValue`; arrays recurse; the
final `else` branch returns `String(value)` as a string value. -/
def convertAttributeValue : JsValue → AttrValue
  | .str s => .stringValue s
  | .num q => if q.den == 1 then .intValue (toString q.num) else .doubleValue q
  | .bool b => .boolValue b
  | .arr l => .arrayValue (convertAttributeList l)
  | .other t => .stringValue t

/-- `value.map(v => this.convertAttributeValue(v))` on an array value. -/
def convertAttributeList : List JsValue → List AttrValue
  | [] => []
  | v :: vs => convertAttributeValue v :: convertAttributeList vs

end

/-- `SpanStatusCode` from `@opentelemetry/api` (UNSET = 0, OK = 1, ERROR = 2). -/
inductive SpanStatusCode where
  | unset
  | ok
  | error
deriving DecidableEq

/-- `{ code, message? }` stored in `OtelSpan.status`. -/
structure SpanStatus where
  code : SpanStatusCode
  message : Option String

/-- One entry of `OtelSpan.logs`. -/
structure LogEntry where
  timestamp : Int
  fields : List (String × JsValue)

/-- The converter's internal span record (`interface OtelSpan`). -/
structure OtelSpan where
  traceId : String
  spanId : String
  parentSpanId : Option String
  operationName : String
  startTime : Int
  endTime : Option Int
  tags : List (String × JsValue)
  logs : List LogEntry
  status : Option SpanStatus

/-- `this.spans.get(k)`: first span stored under key `k`.  Every insertion
uses `span.spanId` as the key, so lookup is by the `spanId` field. -/
def spansGet : List OtelSpan → String → Option OtelSpan
  | [], _ => none
  | sp :: rest, k => if sp.spanId = k then some sp else spansGet rest k

/-- `this.spans.set(sp.spanId, sp)`: overwrite the entry with the same key in
place (preserving insertion order), else append. -/
def spansSet : List OtelSpan → OtelSpan → List OtelSpan
  | [], sp => [sp]
  | sp' :: rest, sp => if sp'.spanId = sp.spanId then sp :: rest else sp' :: spansSet rest sp

/-- JS object assignment `m[k] = v`: overwrite an existing key in place,
append a new key at the end. -/
def recordSet (m : List (String × JsValue)) (k : String) (v : JsValue) :
    List (String × JsValue) :=
  match m with
  | [] => [(k, v)]
  | (k', v') :: rest => if k' = k then (k, v) :: rest else (k', v') :: recordSet rest k v

/-- JS object read `m[k]`. -/
def recordGet (m : List (String × JsValue)) (k : String) : Option JsValue :=
  match m with
  | [] => none
  | (k', v) :: rest => if k' = k then some v else recordGet rest k

/-- JS `x || d` on an optional string: `undefined` and `""` are falsy. -/
def jsOrElse (x : Option String) (d : String) : String :=
  match x with
  | some s => if s = "" then d else s
  | none => d

/-- JS `x || undefined` on an optional string. -/
def jsOrUndefined (x : Option String) : Option String :=
  match x with
  | some s => if s = "" then none else some s
  | none => none

/-- JS truthiness of an optional string. -/
def jsTruthy (x : Option String) : Bool :=
  match x with
  | some s => s != ""
  | none => false

mutual

/-- JS `String(v)` coercion (used by `Array.prototype.join`).  Number
formatting is canonicalised: integers print as their decimal string,
other rationals via `Rat`'s representation. -/
def jsValueToString : JsValue → String
  | .str s => s
  | .num q => if q.den == 1 then toString q.num else toString q
  | .bool b => if b then "true" else "false"
  | .arr l => String.intercalate "," (jsValueListToStrings l)
  | .other t => t

/-- Elementwise `String(v)` over an array. -/
def jsValueListToStrings : List JsValue → List String
  | [] => []
  | v :: vs => jsValueToString v :: jsValueListToStrings vs

end

mutual

/-- `JSON.stringify(v)`, modelled for the value forms above (string escaping
omitted; the `other` case keeps the value's textual representation). -/
def jsonStringify : JsValue → String
  | .str s => "\"" ++ s ++ "\""
  | .num q => if q.den == 1 then toString q.num else toString q
  | .bool b => if b then "true" else "false"
  | .arr l => "[" ++ String.intercalate "," (jsonStringifyList l) ++ "]"
  | .other t => t

/-- Elementwise `JSON.stringify` over an array. -/
def jsonStringifyList : List JsValue → List String
  | [] => []
  | v :: vs => jsonStringify v :: jsonStringifyList vs

end

/-- `TailStream.Onset['info']`: the union dispatched on by
`getOperationName` and `extractTags`.  `scheduledTimeIso` carries the result
of `scheduledTime.toISOString()`. -/
inductive OnsetInfo where
  | fetch (method url : String) (cfJson : Option JsValue)
  | scheduled (cron : String) (scheduledTimeIso : String)
  | queue (queueName : String) (batchSize : Int)
  | email (mailFrom : String)
  | jsrpc (methodName : String)
  | alarm
  | custom
  | trace
  | hibernatableWebSocket (innerType : String)

/-- The `onset` event payload.  `scriptVersion` carries
`onset.scriptVersion?.id`; `attributes` is `none` when the attribute list is
absent or not an array (the defensive `Array.isArray` check). -/
structure Onset where
  spanId : String
  info : OnsetInfo
  scriptName : Option String
  scriptVersion : Option String
  executionModel : String
  dispatchNamespace : Option String
  entrypoint : Option String
  scriptTags : Option (List String)
  attributes : Option (List (String × JsValue))

/-- `TailStream.SpanOpen['info']`. -/
inductive SpanOpenInfo where
  | fetch (method url : String)
  | attributes (info : Option (List (String × JsValue)))
  | other

/-- The `spanOpen` event payload. -/
structure SpanOpen where
  spanId : String
  name : String
  info : Option SpanOpenInfo

/-- `TailStream.Return['info']`. -/
inductive ReturnInfo where
  | fetch (statusCode : Int)
  | other

/-- The tagged union of tail-event payloads dispatched by `handleEvent`. -/
inductive EventType where
  | onset (o : Onset)
  | spanOpen (s : SpanOpen)
  | attributes (info : Option (List (String × JsValue)))
  | log (level : String) (message : JsValue)
  | spanClose (outcome : String)
  | exception (name message : String) (stack : Option String)
  | returnEvent (info : Option ReturnInfo)
  | outcome (outcome : String) (cpuTime wallTime : Int)
  | diagnosticChannel (channel : String) (message : JsValue)

/-- The per-event span context supplied by the host. -/
structure SpanContext where
  traceId : String
  spanId : Option String

/-- A tail event: timestamp (milliseconds, as `Date.getTime()`), span
context, and payload. -/
structure TailEvent where
  timestamp : Int
  spanContext : SpanContext
  event : EventType

/-- The converter's mutable state: the endpoint and the span table. -/
structure ConverterState where
  otelEndpoint : String
  spans : List OtelSpan

/-- The constructor's default collector endpoint. -/
def defaultEndpoint : String := "http://localhost:4318/v1/traces"

/-- `getOperationName` from the source.  The TS `default: 'unknown'` branch
is unreachable for the closed union modelled here. -/
def getOperationName : OnsetInfo → String
  | .fetch method url _ => method ++ " " ++ url
  | .scheduled cron _ => "scheduled:" ++ cron
  | .queue queueName _ => "queue:" ++ queueName
  | .email mailFrom => "email:" ++ mailFrom
  | .jsrpc methodName => "rpc:" ++ methodName
  | .alarm => "alarm"
  | .custom => "custom"
  | .trace => "trace"
  | .hibernatableWebSocket innerType => "websocket:" ++ innerType

/-- `if (v) tags[k] = v` for an optional string `v` (JS truthiness). -/
def addIfTruthy (tags : List (String × JsValue)) (k : String) (v : Option String) :
    List (String × JsValue) :=
  match v with
  | some s => if s = "" then tags else recordSet tags k (.str s)
  | none => tags

/-- `extractTags` from the source: base service tags, conditional metadata
tags, onset-kind-specific tags, then the defensive overlay of the onset's
attribute list. -/
def extractTags (onset : Onset) : List (String × JsValue) :=
  let tags : List (String × JsValue) :=
    [("service.name", .str (jsOrElse onset.scriptName "cloudflare-worker")),
     ("service.version", .str (jsOrElse onset.scriptVersion "unknown")),
     ("execution.model", .str onset.executionModel)]
  let tags := addIfTruthy tags "dispatch.namespace" onset.dispatchNamespace
  let tags := addIfTruthy tags "entrypoint" onset.entrypoint
  let tags := match onset.scriptTags with
    | some l => recordSet tags "script.tags" (.str (String.intercalate "," l))
    | none => tags
  let tags := match onset.info with
    | .fetch method url cfJson =>
      let tags := recordSet (recordSet tags "http.method" (.str method)) "http.url" (.str url)
      (match cfJson with
       | some cf => recordSet tags "cf.properties" (.str (jsonStringify cf))
       | none => tags)
    | .scheduled cron iso =>
      recordSet (recordSet tags "cron.expression" (.str cron)) "scheduled.time" (.str iso)
    | .queue queueName batchSize =>
      recordSet (recordSet tags "queue.name" (.str queueName)) "queue.batch_size"
        (.num batchSize)
    | _ => tags
  match onset.attributes with
  | some l => l.foldl (fun t p => recordSet t p.1 p.2) tags
  | none => tags

/-- `extractSpanInfo` from the source. -/
def extractSpanInfo (info : Option SpanOpenInfo) : List (String × JsValue) :=
  match info with
  | none => []
  | some (.fetch method url) => [("http.method", .str method), ("http.url", .str url)]
  | some (.attributes info2) =>
    (match info2 with
     | some l => l.foldl (fun t p => recordSet t p.1 p.2) []
     | none => [])
  | some .other => []

/-- `handleOnset` from the source: creates the root span.  Its parent is the
context's current-span id when truthy (`spanContext.spanId || undefined`),
else absent. -/
def handleOnset (st : ConverterState) (ts : Int) (ctx : SpanContext) (o : Onset) :
    ConverterState :=
  let span : OtelSpan :=
    { traceId := ctx.traceId
      spanId := o.spanId
      parentSpanId := jsOrUndefined ctx.spanId
      operationName := getOperationName o.info
      startTime := ts * 1000000
      endTime := none
      tags := extractTags o
      logs := []
      status := none }
  { st with spans := spansSet st.spans span }

/-- `handleSpanOpen` from the source: creates a child span whose parent is
the context's current-span id (assigned directly). -/
def handleSpanOpen (st : ConverterState) (ts : Int) (ctx : SpanContext) (s : SpanOpen) :
    ConverterState :=
  let span : OtelSpan :=
    { traceId := ctx.traceId
      spanId := s.spanId
      parentSpanId := ctx.spanId
      operationName := s.name
      startTime := ts * 1000000
      endTime := none
      tags := extractSpanInfo s.info
      logs := []
      status := none }
  { st with spans := spansSet st.spans span }

/-- `this.spans.get(spanContext.spanId!)`: with an absent context id the JS
`Map.get(undefined)` finds nothing. -/
def getTargetSpan (st : ConverterState) (ctx : SpanContext) : Option OtelSpan :=
  match ctx.spanId with
  | some i => spansGet st.spans i
  | none => none

/-- `handleAttributes` from the source: overlay the event's attribute list on
the target span's tags; no-op when the target is missing or the list is
absent / not an array. -/
def handleAttributes (st : ConverterState) (ctx : SpanContext)
    (info : Option (List (String × JsValue))) : ConverterState :=
  match getTargetSpan st ctx with
  | none => st
  | some span =>
    match info with
    | some l =>
      let span' := { span with tags := l.foldl (fun t p => recordSet t p.1 p.2) span.tags }
      { st with spans := spansSet st.spans span' }
    | none => st

/-- `handleLog` from the source: append a `{level, message}` log entry to the
target span; an array message is joined with a single space. -/
def handleLog (st : ConverterState) (ts : Int) (ctx : SpanContext)
    (level : String) (message : JsValue) : ConverterState :=
  match getTargetSpan st ctx with
  | none => st
  | some span =>
    let msg : JsValue :=
      match message with
      | .arr l => .str (String.intercalate " " (jsValueListToStrings l))
      | m => m
    let span' :=
      { span with logs := span.logs ++
          [{ timestamp := ts * 1000000, fields := [("level", .str level), ("message", msg)] }] }
    { st with spans := spansSet st.spans span' }

/-- `handleSpanClose` from the source: set the target span's `endTime` and
its status (OK iff the outcome string is `"ok"`, message = the outcome). -/
def handleSpanClose (st : ConverterState) (ts : Int) (ctx : SpanContext)
    (outcome : String) : ConverterState :=
  match getTargetSpan st ctx with
  | none => st
  | some span =>
    let span' :=
      { span with
        endTime := some (ts * 1000000)
        status := some { code := if outcome = "ok" then .ok else .error
                         message := some outcome } }
    { st with spans := spansSet st.spans span' }

/-- `handleException` from the source: append one error-level log entry with
`exception.type` / `exception.message` / `exception.stacktrace` fields
(`exception.stack || ''`), then overwrite the span's status to ERROR. -/
def handleException (st : ConverterState) (ts : Int) (ctx : SpanContext)
    (name message : String) (stack : Option String) : ConverterState :=
  match getTargetSpan st ctx with
  | none => st
  | some span =>
    let span' :=
      { span with
        logs := span.logs ++
          [{ timestamp := ts * 1000000
             fields := [("level", .str "error"),
                        ("exception.type", .str name),
                        ("exception.message", .str message),
                        ("exception.stacktrace", .str (jsOrElse stack ""))] }]
        status := some { code := .error, message := some message } }
    { st with spans := spansSet st.spans span' }

/-- `handleReturn` from the source: for a fetch-style return, set
`http.response.status_code` on the target span. -/
def handleReturn (st : ConverterState) (ctx : SpanContext)
    (info : Option ReturnInfo) : ConverterState :=
  match getTargetSpan st ctx with
  | none => st
  | some span =>
    match info with
    | some (.fetch statusCode) =>
      let span' :=
        { span with tags := recordSet span.tags "http.response.status_code" (.num statusCode) }
      { st with spans := spansSet st.spans span' }
    | _ => st

/-- `handleDiagnosticChannel` from the source: append a debug-level log entry
with the channel name and the (stringified if needed) message. -/
def handleDiagnosticChannel (st : ConverterState) (ts : Int) (ctx : SpanContext)
    (channel : String) (message : JsValue) : ConverterState :=
  match getTargetSpan st ctx with
  | none => st
  | some span =>
    let msg : String :=
      match message with
      | .str s => s
      | m => jsonStringify m
    let span' :=
      { span with logs := span.logs ++
          [{ timestamp := ts * 1000000
             fields := [("level", .str "debug"),
                        ("diagnostic.channel", .str channel),
                        ("diagnostic.message", .str msg)] }] }
    { st with spans := spansSet st.spans span' }

/-- `Array.from(this.spans.values()).find(span => !span.parentSpanId)`: the
first span whose `parentSpanId` is falsy (absent or the empty string). -/
def findRootSpan (spans : List OtelSpan) : Option OtelSpan :=
  spans.find? (fun sp => !(jsTruthy sp.parentSpanId))

/-- The root resolution in `handleOutcome`:
`spanContext.spanId ? this.spans.get(spanContext.spanId) : <find parentless>`. -/
def resolveOutcomeRoot (st : ConverterState) (ctx : SpanContext) : Option OtelSpan :=
  match ctx.spanId with
  | some i => if i = "" then findRootSpan st.spans else spansGet st.spans i
  | none => findRootSpan st.spans

/-- The mutation half of `handleOutcome`: set the resolved root span's
`endTime`, status, and the `cpu.time.ms` / `wall.time.ms` tags. -/
def handleOutcomeMutate (st : ConverterState) (ts : Int) (ctx : SpanContext)
    (outcome : String) (cpuTime wallTime : Int) : ConverterState :=
  match resolveOutcomeRoot st ctx with
  | none => st
  | some root =>
    let root' :=
      { root with
        endTime := some (ts * 1000000)
        status := some { code := if outcome = "ok" then .ok else .error
                         message := some outcome }
        tags := recordSet (recordSet root.tags "cpu.time.ms" (.num cpuTime))
          "wall.time.ms" (.num wallTime) }
    { st with spans := spansSet st.spans root' }

/-- `SpanKind` from `@opentelemetry/api` (INTERNAL = 0, SERVER = 1, ...). -/
inductive SpanKind where
  | internal
  | server
  | client
  | producer
  | consumer

/-- One `{ key, value }` attribute in the OTLP payload. -/
structure OtelAttr where
  key : String
  value : AttrValue

/-- One span "event" in the OTLP payload (a converted log entry). -/
structure OtelEvent where
  timeUnixNano : String
  name : String
  attributes : List OtelAttr

/-- One span in the OTLP payload. -/
structure OtelExportSpan where
  traceId : String
  spanId : String
  parentSpanId : Option String
  name : String
  kind : SpanKind
  startTimeUnixNano : String
  endTimeUnixNano : Option String
  attributes : List OtelAttr
  events : List OtelEvent
  status : Option SpanStatus

/-- The OTLP scope record. -/
structure OtelScope where
  name : String
  version : String

/-- One `scopeSpans` group in the OTLP payload. -/
structure OtelScopeSpans where
  scope : OtelScope
  spans : List OtelExportSpan

/-- The OTLP resource record. -/
structure OtelResource where
  attributes : List OtelAttr

/-- One `resourceSpans` group in the OTLP payload. -/
structure OtelResourceSpans where
  resource : OtelResource
  scopeSpans : List OtelScopeSpans

/-- The whole OTLP trace-export body. -/
structure OtelTrace where
  resourceSpans : List OtelResourceSpans

/-- `padHex` from the source: `hex.padStart(targetLength, '0').toLowerCase()`. -/
def padHex (hex : String) (targetLength : Nat) : String :=
  String.mk (((List.replicate (targetLength - hex.data.length) '0') ++ hex.data).map
    Char.toLower)

/-- The per-span conversion inside `convertToOtelFormat`: pad ids, omit
absent `endTime` / falsy `parentSpanId` / absent `status`, map logs to
events named `"log"`, fix the kind to SERVER. -/
def toExportSpan (span : OtelSpan) : OtelExportSpan :=
  { traceId := padHex span.traceId 32
    spanId := padHex span.spanId 16
    parentSpanId :=
      match span.parentSpanId with
      | some p => if p = "" then none else some (padHex p 16)
      | none => none
    name := span.operationName
    kind := .server
    startTimeUnixNano := toString span.startTime
    endTimeUnixNano := span.endTime.map toString
    attributes := span.tags.map (fun p => { key := p.1, value := convertAttributeValue p.2 })
    events := span.logs.map (fun log =>
      { timeUnixNano := toString log.timestamp
        name := "log"
        attributes := log.fields.map (fun p =>
          { key := p.1, value := convertAttributeValue p.2 }) })
    status := span.status.map (fun s => { code := s.code, message := s.message }) }

/-- `convertToOtelFormat` from the source: one resource-span group, one
scope, and the converted spans. -/
def convertToOtelFormat (spans : List OtelSpan) : OtelTrace :=
  { resourceSpans :=
      [{ resource :=
           { attributes :=
               [{ key := "service.name", value := .stringValue "cloudflare-worker" },
                { key := "service.version", value := .stringValue "1.0.0" }] }
         scopeSpans :=
           [{ scope := { name := "cloudflare-worker-tracer", version := "1.0.0" }
              spans := spans.map toExportSpan }] }] }

/-- The collector fetch result, supplied as an oracle: `.error e` models a
rejected `fetch`. -/
abbrev NetResult := Except String Unit

/-- Observable side effects of a handler: payloads passed to `fetch`, and
`console.error` lines. -/
structure Effects where
  sent : List OtelTrace
  errors : List String

/-- No side effects. -/
def noEffects : Effects := { sent := [], errors := [] }

/-- `sendToOtel` from the source: build the payload, `fetch` it, and catch a
transport failure, logging it via `console.error`.  The `.error` branch of
the match is the `catch` clause, so the function never propagates the
failure (its result is always `.ok`). -/
def sendToOtel (net : NetResult) (spans : List OtelSpan) : Except String Effects :=
  let otelTrace := convertToOtelFormat spans
  match net with
  | .ok _ => .ok { sent := [otelTrace], errors := [] }
  | .error e =>
    .ok { sent := [otelTrace]
          errors := ["Failed to export traces to OTEL endpoint: " ++ e] }

/-- `exportSpans` from the source: no-op on an empty table, otherwise send
every span in the table and then clear it.  A failure propagating out of
`sendToOtel` (which never happens) would skip the clear. -/
def exportSpans (net : NetResult) (st : ConverterState) :
    Except String (ConverterState × Effects) :=
  if st.spans.isEmpty then .ok (st, noEffects)
  else
    match sendToOtel net st.spans with
    | .ok effs => .ok ({ st with spans := [] }, effs)
    | .error e => .error e

/-- `handleEvent` from the source: dispatch on the event kind.  Only the
`outcome` branch reaches the network. -/
def handleEvent (net : NetResult) (st : ConverterState) (ev : TailEvent) :
    Except String (ConverterState × Effects) :=
  match ev.event with
  | .onset o => .ok (handleOnset st ev.timestamp ev.spanContext o, noEffects)
  | .spanOpen s => .ok (handleSpanOpen st ev.timestamp ev.spanContext s, noEffects)
  | .attributes info => .ok (handleAttributes st ev.spanContext info, noEffects)
  | .log level message => .ok (handleLog st ev.timestamp ev.spanContext level message, noEffects)
  | .spanClose outcome => .ok (handleSpanClose st ev.timestamp ev.spanContext outcome, noEffects)
  | .exception name message stack =>
    .ok (handleException st ev.timestamp ev.spanContext name message stack, noEffects)
  | .returnEvent info => .ok (handleReturn st ev.spanContext info, noEffects)
  | .outcome o cpuTime wallTime =>
    exportSpans net (handleOutcomeMutate st ev.timestamp ev.spanContext o cpuTime wallTime)
  | .diagnosticChannel channel message =>
    .ok (handleDiagnosticChannel st ev.timestamp ev.spanContext channel message, noEffects)

/-- Process a sequence of events, accumulating effects. -/
def handleEvents (net : NetResult) (st : ConverterState) :
    List TailEvent → Except String (ConverterState × Effects)
  | [] => .ok (st, noEffects)
  | ev :: rest => do
    let (st1, effs1) ← handleEvent net st ev
    let (st2, effs2) ← handleEvents net st1 rest
    .ok (st2, { sent := effs1.sent ++ effs2.sent, errors := effs1.errors ++ effs2.errors })

/-- All spans contained in the payloads a run has sent to the collector. -/
def sentSpans (effs : Effects) : List OtelExportSpan :=
  (effs.sent.map (fun t =>
    (t.resourceSpans.map (fun rs =>
      (rs.scopeSpans.map (fun ss => ss.spans)).flatten)).flatten)).flatten

/-- Look up an attribute by key in an exported span's attribute list. -/
def attrLookup (attrs : List OtelAttr) (k : String) : Option AttrValue :=
  (attrs.find? (fun a => a.key == k)).map (fun a => a.value)

/-! ### Helper lemmas about the span table and records -/

theorem spansGet_spanId {spans : List OtelSpan} {i : String} {sp : OtelSpan}
    (h : spansGet spans i = some sp) : sp.spanId = i := by
  induction spans with
  | nil => simp [spansGet] at h
  | cons sp' rest ih =>
    by_cases h' : sp'.spanId = i
    · simp [spansGet, h'] at h
      exact h ▸ h'
    · simp [spansGet, h'] at h
      exact ih h

theorem spansGet_spansSet (spans : List OtelSpan) (sp : OtelSpan) (i : String) :
    spansGet (spansSet spans sp) i =
      if i = sp.spanId then some sp else spansGet spans i := by
  induction spans with
  | nil =>
    by_cases h : sp.spanId = i
    · simp [spansSet, spansGet, h]
    · simp [spansSet, spansGet, h, Ne.symm h]
  | cons sp' rest ih =>
    simp only [spansSet]
    by_cases h' : sp'.spanId = sp.spanId
    · rw [if_pos h']
      by_cases h : sp.spanId = i
      · simp [spansGet, h]
      · have h3 : ¬ sp'.spanId = i := by rw [h']; exact h
        simp [spansGet, h, Ne.symm h, h3]
    · rw [if_neg h']
      by_cases hi : sp'.spanId = i
      · have h2 : ¬ i = sp.spanId := fun hh => h' (hi.trans hh)
        simp [spansGet, hi, h2]
      · simp [spansGet, hi, ih]

theorem spansSet_ne_nil (spans : List OtelSpan) (sp : OtelSpan) :
    spansSet spans sp ≠ [] := by
  cases spans with
  | nil => simp [spansSet]
  | cons sp' rest =>
    simp only [spansSet]
    split <;> simp

theorem find?_of_filter_eq_singleton {α : Type} {p : α → Bool} {l : List α} {a : α}
    (h : l.filter p = [a]) : l.find? p = some a := by
  induction l with
  | nil => simp at h
  | cons x xs ih =>
    by_cases hx : p x = true
    · rw [List.filter_cons_of_pos hx] at h
      rw [List.find?_cons_of_pos _ hx]
      exact congrArg some (List.cons.injEq .. ▸ h).1
    · rw [List.filter_cons_of_neg (by simpa using hx)] at h
      rw [List.find?_cons_of_neg _ (by simpa using hx)]
      exact ih h

theorem jsOrElse_empty (x : Option String) : jsOrElse x "" = x.getD "" := by
  cases x with
  | none => rfl
  | some s => by_cases h : s = "" <;> simp [jsOrElse, h]

theorem convertAttributeList_eq_map (l : List JsValue) :
    convertAttributeList l = l.map convertAttributeValue := by
  induction l with
  | nil => rfl
  | cons v vs ih => simp [convertAttributeList, ih]

/-! ### Helper lemmas for `padHex` -/

theorem char_toNat_ofNat_of_valid {n : Nat} (h : n.isValidChar) :
    (Char.ofNat n).toNat = n := by
  simp [Char.ofNat, h, Char.ofNatAux, Char.toNat, UInt32.toNat, BitVec.toNat_ofNatLt]

theorem char_toLower_toLower (c : Char) :
    Char.toLower (Char.toLower c) = Char.toLower c := by
  unfold Char.toLower
  by_cases h : c.toNat ≥ 65 ∧ c.toNat ≤ 90
  · rw [if_pos h]
    have hv : (c.toNat + 32).isValidChar := Or.inl (by omega)
    rw [char_toNat_ofNat_of_valid hv, if_neg (by omega)]
  · rw [if_neg h, if_neg h]

theorem map_toLower_toLower (l : List Char) :
    (l.map Char.toLower).map Char.toLower = l.map Char.toLower := by
  rw [List.map_map]
  exact List.map_congr_left (fun c _ => char_toLower_toLower c)

/-! ### Claim theorems -/

/-- C9: `padHex` is idempotent — `padHex (padHex s n) n = padHex s n` for
every string `s` and width `n`; in particular an already-32-character trace
id or 16-character span id is unchanged by a second application. -/
theorem c9_padHex_idempotent (s : String) (n : Nat) :
    padHex (padHex s n) n = padHex s n := by
  unfold padHex
  have hdata :
      (String.mk (((List.replicate (n - s.data.length) '0') ++ s.data).map Char.toLower)).data
        = ((List.replicate (n - s.data.length) '0') ++ s.data).map Char.toLower := rfl
  rw [hdata]
  have hlen : (((List.replicate (n - s.data.length) '0') ++ s.data).map Char.toLower).length
      = (n - s.data.length) + s.data.length := by simp
  rw [hlen]
  have hz : n - ((n - s.data.length) + s.data.length) = 0 := by omega
  rw [hz]
  rw [show (List.replicate 0 '0') = ([] : List Char) from rfl, List.nil_append,
    map_toLower_toLower]

/-- C5: the attribute encoder produces a string value for text; an integer
value whose payload is the number's decimal string for a whole-number
numeric; a floating-point value for any other numeric; a boolean value for a
boolean; an array of recursively encoded values for a sequence; and the
value's textual representation as a string value for anything else. -/
theorem c5_encoder_rules :
    (∀ s, convertAttributeValue (.str s) = .stringValue s) ∧
    (∀ q : ℚ, (∃ n : ℤ, (n : ℚ) = q) →
      convertAttributeValue (.num q) = .intValue (toString q.num)) ∧
    (∀ q : ℚ, (¬ ∃ n : ℤ, (n : ℚ) = q) →
      convertAttributeValue (.num q) = .doubleValue q) ∧
    (∀ b, convertAttributeValue (.bool b) = .boolValue b) ∧
    (∀ l, convertAttributeValue (.arr l) = .arrayValue (l.map convertAttributeValue)) ∧
    (∀ t, convertAttributeValue (.other t) = .stringValue t) := by
  refine ⟨fun s => rfl, ?_, ?_, fun b => rfl, ?_, fun t => rfl⟩
  · rintro q ⟨n, hn⟩
    have hden : q.den = 1 := by rw [← hn]; exact Rat.den_intCast n
    simp [convertAttributeValue, hden]
  · intro q hq
    have hden : q.den ≠ 1 := fun h1 => hq ⟨q.num, Rat.coe_int_num_of_den_eq_one h1⟩
    simp [convertAttributeValue, hden]
  · intro l
    simp [convertAttributeValue, convertAttributeList_eq_map]

/-- Witness for C5: the whole number 3 encodes as the integer value `"3"`,
and the non-integral 7/2 encodes as a floating-point value. -/
theorem c5_encoder_rules_witness :
    convertAttributeValue (.num 3) = .intValue "3" ∧
    convertAttributeValue (.num (7 / 2)) = .doubleValue (7 / 2) := by
  constructor
  · have h := c5_encoder_rules.2.1 3 ⟨3, by norm_num⟩
    rw [h]
    rfl
  · refine c5_encoder_rules.2.2.1 (7 / 2) ?_
    rintro ⟨n, hn⟩
    have h2 : ((2 * n : ℤ) : ℚ) = 7 := by push_cast; rw [hn]; ring
    have h3 : (2 * n : ℤ) = 7 := by exact_mod_cast h2
    omega

/-! ### Concrete fixtures for witnesses and scenario runs -/

/-- A fresh converter state, as built by the constructor. -/
def initState : ConverterState := { otelEndpoint := defaultEndpoint, spans := [] }

/-- A minimal custom-typed onset payload. -/
def onsetCustom (spanId : String) : Onset :=
  { spanId := spanId
    info := .custom
    scriptName := none
    scriptVersion := none
    executionModel := "stateless"
    dispatchNamespace := none
    entrypoint := none
    scriptTags := none
    attributes := none }

/-- A root-like span already carrying an OK status, used as a concrete table
entry. -/
def spanW : OtelSpan :=
  { traceId := "abc"
    spanId := "1"
    parentSpanId := none
    operationName := "custom"
    startTime := 1000000
    endTime := none
    tags := []
    logs := []
    status := some { code := .ok, message := some "ok" } }

/-- A converter state whose table holds exactly `spanW`. -/
def stW : ConverterState := { otelEndpoint := defaultEndpoint, spans := [spanW] }

/-- C4 (amended): an onset whose context carries no current-span id creates a
root span with no `parentSpanId`; an onset whose context carries a
*non-empty* current-span id creates a root span whose `parentSpanId` equals
that id. -/
theorem c4_onset_parent (st : ConverterState) (ts : Int) (tid : String) (o : Onset) :
    ((spansGet (handleOnset st ts { traceId := tid, spanId := none } o).spans o.spanId).map
        (fun sp => sp.parentSpanId) = some none) ∧
    (∀ s : String, s ≠ "" →
      (spansGet (handleOnset st ts { traceId := tid, spanId := some s } o).spans
          o.spanId).map (fun sp => sp.parentSpanId) = some (some s)) := by
  constructor
  · simp [handleOnset, spansGet_spansSet, jsOrUndefined]
  · intro s hs
    simp [handleOnset, spansGet_spansSet, jsOrUndefined, hs]

/-- Witness for C4 (amended), at a concrete onset with context span id
`"up"`. -/
theorem c4_onset_parent_witness :
    (spansGet (handleOnset initState 1 { traceId := "abc", spanId := some "up" }
        (onsetCustom "1")).spans "1").map (fun sp => sp.parentSpanId) = some (some "up") :=
  (c4_onset_parent initState 1 "abc" (onsetCustom "1")).2 "up" (by decide)

/-- Counterexample to C4 as stated: a context that carries the current-span
id `""` (a present id) yields a root span with *no* `parentSpanId`, because
the source evaluates `spanContext.spanId || undefined` and the empty string
is falsy in JS. -/
theorem c4_onset_parent_counterexample :
    (spansGet (handleOnset initState 1 { traceId := "abc", spanId := some "" }
        (onsetCustom "1")).spans "1").map (fun sp => sp.parentSpanId) = some none ∧
    (some none : Option (Option String)) ≠ some (some "") := by
  exact ⟨rfl, by decide⟩

/-- C6: an exception event on a span present in the table overwrites the
span's status — whatever it was, including a previously set OK — to ERROR
with the exception's message, and appends exactly one error-level log entry
whose fields are `exception.type`, `exception.message` and
`exception.stacktrace`, the latter empty when the payload has no stack
text. -/
theorem c6_exception_overwrites (st : ConverterState) (ts : Int) (tid i : String)
    (name msg : String) (stack : Option String) (sp : OtelSpan)
    (h : spansGet st.spans i = some sp) :
    spansGet (handleException st ts { traceId := tid, spanId := some i }
        name msg stack).spans i =
      some { sp with
        status := some { code := .error, message := some msg }
        logs := sp.logs ++
          [{ timestamp := ts * 1000000
             fields := [("level", .str "error"),
                        ("exception.type", .str name),
                        ("exception.message", .str msg),
                        ("exception.stacktrace", .str (stack.getD ""))] }] } := by
  have hsp : sp.spanId = i := spansGet_spanId h
  simp [handleException, getTargetSpan, h, spansGet_spansSet, hsp, jsOrElse_empty]

/-- Witness for C6: a concrete span whose status is OK ends up with an ERROR
status and one error log entry with an empty stacktrace. -/
theorem c6_exception_overwrites_witness :
    spansGet (handleException stW 2 { traceId := "abc", spanId := some "1" }
        "TypeError" "boom" none).spans "1" =
      some { spanW with
        status := some { code := .error, message := some "boom" }
        logs := [{ timestamp := 2000000
                   fields := [("level", .str "error"),
                              ("exception.type", .str "TypeError"),
                              ("exception.message", .str "boom"),
                              ("exception.stacktrace", .str "")] }] } :=
  c6_exception_overwrites stW 2 "abc" "1" "TypeError" "boom" none spanW rfl

/-- The event kinds that resolve a target span via the event context
(`attributes`, `log`, `exception`, `return`, `diagnosticChannel`). -/
def targetsSpan : EventType → Bool
  | .attributes _ => true
  | .log _ _ => true
  | .exception _ _ _ => true
  | .returnEvent _ => true
  | .diagnosticChannel _ _ => true
  | _ => false

/-- C7: for an attributes, log, exception, return or diagnosticChannel event
whose resolved target span id is not present in the table, handling the
event leaves the converter state unchanged and raises no error. -/
theorem c7_unresolved_target_noop (net : NetResult) (st : ConverterState) (ev : TailEvent)
    (htgt : targetsSpan ev.event = true)
    (hmiss : ev.spanContext.spanId.bind (spansGet st.spans) = none) :
    handleEvent net st ev = .ok (st, noEffects) := by
  have hget : getTargetSpan st ev.spanContext = none := by
    unfold getTargetSpan
    cases h : ev.spanContext.spanId with
    | none => rfl
    | some i => rw [h] at hmiss; simpa using hmiss
  cases hev : ev.event <;> rw [hev] at htgt <;> simp [targetsSpan] at htgt <;>
    simp [handleEvent, hev, handleAttributes, handleLog, handleException, handleReturn,
      handleDiagnosticChannel, hget]

/-- Witness for C7: a log event naming the absent span id `"404"` leaves a
one-span table untouched. -/
theorem c7_unresolved_target_noop_witness :
    handleEvent (Except.ok ()) stW
      { timestamp := 3
        spanContext := { traceId := "abc", spanId := some "404" }
        event := .log "info" (.str "hello") } = .ok (stW, noEffects) :=
  c7_unresolved_target_noop (Except.ok ()) stW _ rfl rfl

/-- C8: a failed network send is caught inside `sendToOtel` and logged
(`console.error` line), `sendToOtel` and `exportSpans` never propagate a
failure to their caller, and the converter state produced by any event is
identical whether the send succeeded or failed — so subsequent event
processing is unaffected. -/
theorem c8_send_failure_contained :
    (∀ e spans, sendToOtel (Except.error e) spans =
      .ok { sent := [convertToOtelFormat spans]
            errors := ["Failed to export traces to OTEL endpoint: " ++ e] }) ∧
    (∀ (net : NetResult) spans, ∃ effs, sendToOtel net spans = .ok effs) ∧
    (∀ (net : NetResult) st, ∃ r, exportSpans net st = .ok r) ∧
    (∀ e st ev,
      (handleEvent (Except.error e) st ev).toOption.map Prod.fst =
        (handleEvent (Except.ok ()) st ev).toOption.map Prod.fst) := by
  have hsend : ∀ (net : NetResult) spans, ∃ effs, sendToOtel net spans = .ok effs := by
    intro net spans
    cases net <;> exact ⟨_, rfl⟩
  have hexp : ∀ (net : NetResult) st, ∃ r, exportSpans net st = .ok r := by
    intro net st
    unfold exportSpans
    by_cases h : st.spans.isEmpty
    · rw [if_pos h]; exact ⟨_, rfl⟩
    · rw [if_neg h]
      obtain ⟨effs, heffs⟩ := hsend net st.spans
      rw [heffs]
      exact ⟨_, rfl⟩
  refine ⟨fun e spans => rfl, hsend, hexp, ?_⟩
  intro e st ev
  cases hev : ev.event <;> simp [handleEvent, hev]
  case outcome o cpu wall =>
    by_cases h :
        (handleOutcomeMutate st ev.timestamp ev.spanContext o cpu wall).spans.isEmpty = true
    · simp [exportSpans, h]
    · simp [exportSpans, h, sendToOtel, Except.toOption]

/-- C10: flushing a non-empty span table empties it whatever the network
result was — spans present during a failed export attempt are lost, not
retained. -/
theorem c10_export_clears_table (net : NetResult) (st : ConverterState)
    (h : st.spans ≠ []) :
    ∃ effs, exportSpans net st = .ok ({ st with spans := [] }, effs) := by
  unfold exportSpans
  rw [if_neg (by simpa [List.isEmpty_iff] using h)]
  cases net <;> exact ⟨_, rfl⟩

/-- Witness for C10: a failed send on a one-span table still clears it. -/
theorem c10_export_clears_table_witness :
    ∃ effs, exportSpans (Except.error "network down") stW =
      .ok ({ otelEndpoint := defaultEndpoint, spans := [] }, effs) :=
  c10_export_clears_table (Except.error "network down") stW (by simp [stW])

/-- A span counts as parentless when its `parentSpanId` is absent or empty:
this is both the `!span.parentSpanId` test used by `handleOutcome`'s fallback
lookup and the condition under which `convertToOtelFormat` omits the
exported `parentSpanId`. -/
def hasNoParent (sp : OtelSpan) : Bool := !(jsTruthy sp.parentSpanId)

/-- C2: on an outcome event the converter resolves the root span by the
context's (non-empty) span id if present, else as the table's unique
parentless span; it sets that span's `endTime`, its status (OK iff the
outcome string is `"ok"`, with the outcome string as message) and the
`cpu.time.ms` / `wall.time.ms` tags, and then flushes every span currently
in the table to the exporter, leaving the table empty. -/
theorem c2_outcome_behaviour (net : NetResult) :
    (∀ (st : ConverterState) (tid i : String), i ≠ "" →
      resolveOutcomeRoot st { traceId := tid, spanId := some i } = spansGet st.spans i) ∧
    (∀ (st : ConverterState) (tid : String) (sp : OtelSpan),
      st.spans.filter hasNoParent = [sp] →
      resolveOutcomeRoot st { traceId := tid, spanId := none } = some sp) ∧
    (∀ (st : ConverterState) (ts : Int) (ctx : SpanContext) (o : String)
      (cpu wall : Int) (root : OtelSpan),
      resolveOutcomeRoot st ctx = some root →
      ∃ st' effs,
        handleEvent net st
            { timestamp := ts, spanContext := ctx, event := .outcome o cpu wall } =
          .ok (st', effs) ∧
        st'.spans = [] ∧
        effs.sent =
          [convertToOtelFormat (handleOutcomeMutate st ts ctx o cpu wall).spans] ∧
        spansGet (handleOutcomeMutate st ts ctx o cpu wall).spans root.spanId =
          some { root with
            endTime := some (ts * 1000000)
            status := some { code := if o = "ok" then .ok else .error
                             message := some o }
            tags := recordSet (recordSet root.tags "cpu.time.ms" (.num cpu))
              "wall.time.ms" (.num wall) }) := by
  refine ⟨?_, ?_, ?_⟩
  · intro st tid i hi
    simp [resolveOutcomeRoot, hi]
  · intro st tid sp hfilter
    simp only [resolveOutcomeRoot]
    exact find?_of_filter_eq_singleton hfilter
  · intro st ts ctx o cpu wall root hroot
    have hne : (handleOutcomeMutate st ts ctx o cpu wall).spans ≠ [] := by
      simp only [handleOutcomeMutate, hroot]
      exact spansSet_ne_nil _ _
    have hget : spansGet (handleOutcomeMutate st ts ctx o cpu wall).spans root.spanId =
        some { root with
          endTime := some (ts * 1000000)
          status := some { code := if o = "ok" then .ok else .error
                           message := some o }
          tags := recordSet (recordSet root.tags "cpu.time.ms" (.num cpu))
            "wall.time.ms" (.num wall) } := by
      simp [handleOutcomeMutate, hroot, spansGet_spansSet]
    have hev : handleEvent net st
        { timestamp := ts, spanContext := ctx, event := .outcome o cpu wall } =
        exportSpans net (handleOutcomeMutate st ts ctx o cpu wall) := rfl
    have hexp : ∃ effs,
        exportSpans net (handleOutcomeMutate st ts ctx o cpu wall) =
          .ok ({ handleOutcomeMutate st ts ctx o cpu wall with spans := [] }, effs) ∧
        effs.sent = [convertToOtelFormat (handleOutcomeMutate st ts ctx o cpu wall).spans] := by
      unfold exportSpans
      rw [if_neg (by simp [List.isEmpty_iff]; exact hne)]
      cases net <;> exact ⟨_, rfl, rfl⟩
    obtain ⟨effs, hE, hsent⟩ := hexp
    exact ⟨_, effs, hev.trans hE, rfl, hsent, hget⟩

/-- Witness for C2: a one-span table, outcome with no context id — the
parentless span `spanW` is resolved, mutated, and the table is flushed
empty. -/
theorem c2_outcome_behaviour_witness :
    resolveOutcomeRoot stW { traceId := "abc", spanId := some "1" } = spansGet stW.spans "1" ∧
    resolveOutcomeRoot stW { traceId := "abc", spanId := none } = some spanW ∧
    ∃ st' effs,
      handleEvent (Except.ok ()) stW
          { timestamp := 5
            spanContext := { traceId := "abc", spanId := none }
            event := .outcome "ok" 5 10 } = .ok (st', effs) ∧
      st'.spans = [] ∧
      effs.sent = [convertToOtelFormat
        (handleOutcomeMutate stW 5 { traceId := "abc", spanId := none } "ok" 5 10).spans] ∧
      spansGet (handleOutcomeMutate stW 5 { traceId := "abc", spanId := none }
          "ok" 5 10).spans spanW.spanId =
        some { spanW with
          endTime := some (5 * 1000000)
          status := some { code := if "ok" = "ok" then .ok else .error
                           message := some "ok" }
          tags := recordSet (recordSet spanW.tags "cpu.time.ms" (.num 5))
            "wall.time.ms" (.num 10) } := by
  have h0 := (c2_outcome_behaviour (Except.ok ())).1 stW "abc" "1" (by decide)
  have h1 := (c2_outcome_behaviour (Except.ok ())).2.1 stW "abc" spanW (by rfl)
  exact ⟨h0, h1, (c2_outcome_behaviour (Except.ok ())).2.2 stW 5
    { traceId := "abc", spanId := none } "ok" 5 10 spanW h1⟩

theorem getTargetSpan_some {st : ConverterState} {ctx : SpanContext} {sp : OtelSpan}
    (h : getTargetSpan st ctx = some sp) :
    ∃ j, ctx.spanId = some j ∧ spansGet st.spans j = some sp := by
  unfold getTargetSpan at h
  cases hc : ctx.spanId with
  | none => rw [hc] at h; simp at h
  | some j => rw [hc] at h; exact ⟨j, rfl, h⟩

/-- Replacing a stored span by a same-id span with the same `endTime` leaves
every lookup's `endTime` unchanged. -/
theorem spansGet_endTime_spansSet {st : ConverterState} {j : String} {sp sp' : OtelSpan}
    (hget : spansGet st.spans j = some sp)
    (hid : sp'.spanId = sp.spanId) (hend : sp'.endTime = sp.endTime) (i : String) :
    (spansGet (spansSet st.spans sp') i).map (fun s => s.endTime) =
      (spansGet st.spans i).map (fun s => s.endTime) := by
  rw [spansGet_spansSet]
  by_cases h : i = sp'.spanId
  · rw [if_pos h]
    have hj : sp.spanId = j := spansGet_spanId hget
    have hij : i = j := by rw [h, hid, hj]
    rw [hij, hget]
    simp [hend]
  · rw [if_neg h]

/-- C3 (amended): a close-equivalent event — `spanClose` for its target, or
`outcome` for the resolved root — *unconditionally* assigns the span's
`endTime` to the event's own timestamp, overwriting any previously set
value, while the five span-targeting mutation events (attributes, log,
exception, return, diagnosticChannel) never change any span's `endTime`.
`endTime` is therefore assigned exactly once only on sequences in which
exactly one close-equivalent event applies to the span before removal. -/
theorem c3_endTime_assignment :
    (∀ (net : NetResult) (st : ConverterState) (ev : TailEvent) st' effs,
      targetsSpan ev.event = true →
      handleEvent net st ev = .ok (st', effs) →
      ∀ i, (spansGet st'.spans i).map (fun sp => sp.endTime) =
        (spansGet st.spans i).map (fun sp => sp.endTime)) ∧
    (∀ (st : ConverterState) (ts : Int) (tid i o : String) (sp : OtelSpan),
      spansGet st.spans i = some sp →
      (spansGet (handleSpanClose st ts { traceId := tid, spanId := some i } o).spans
          i).map (fun sp => sp.endTime) = some (some (ts * 1000000))) ∧
    (∀ (st : ConverterState) (ts : Int) (ctx : SpanContext) (o : String)
      (cpu wall : Int) (root : OtelSpan),
      resolveOutcomeRoot st ctx = some root →
      (spansGet (handleOutcomeMutate st ts ctx o cpu wall).spans root.spanId).map
        (fun sp => sp.endTime) = some (some (ts * 1000000))) := by
  refine ⟨?_, ?_, ?_⟩
  · intro net st ev st' effs htgt hE i
    cases hev : ev.event <;> rw [hev] at htgt <;> simp [targetsSpan] at htgt <;>
      simp only [handleEvent] at hE <;> rw [hev] at hE <;>
      injection hE with hp <;> injection hp with h1 h2 <;> subst h1
    case attributes info =>
      cases hg : getTargetSpan st ev.spanContext with
      | none => simp [handleAttributes, hg]
      | some sp =>
        obtain ⟨j, hcj, hget⟩ := getTargetSpan_some hg
        cases info with
        | none => simp [handleAttributes, hg]
        | some l =>
          simp only [handleAttributes, hg]
          refine spansGet_endTime_spansSet hget ?_ ?_ i <;> rfl
    case log level message =>
      cases hg : getTargetSpan st ev.spanContext with
      | none => simp [handleLog, hg]
      | some sp =>
        obtain ⟨j, hcj, hget⟩ := getTargetSpan_some hg
        simp only [handleLog, hg]
        refine spansGet_endTime_spansSet hget ?_ ?_ i <;> rfl
    case exception name message stack =>
      cases hg : getTargetSpan st ev.spanContext with
      | none => simp [handleException, hg]
      | some sp =>
        obtain ⟨j, hcj, hget⟩ := getTargetSpan_some hg
        simp only [handleException, hg]
        refine spansGet_endTime_spansSet hget ?_ ?_ i <;> rfl
    case returnEvent info =>
      cases hg : getTargetSpan st ev.spanContext with
      | none => simp [handleReturn, hg]
      | some sp =>
        obtain ⟨j, hcj, hget⟩ := getTargetSpan_some hg
        cases info with
        | none => simp [handleReturn, hg]
        | some ri =>
          cases ri with
          | fetch statusCode =>
            simp only [handleReturn, hg]
            refine spansGet_endTime_spansSet hget ?_ ?_ i <;> rfl
          | other => simp [handleReturn, hg]
    case diagnosticChannel channel message =>
      cases hg : getTargetSpan st ev.spanContext with
      | none => simp [handleDiagnosticChannel, hg]
      | some sp =>
        obtain ⟨j, hcj, hget⟩ := getTargetSpan_some hg
        simp only [handleDiagnosticChannel, hg]
        refine spansGet_endTime_spansSet hget ?_ ?_ i <;> rfl
  · intro st ts tid i o sp hget
    have hsp : sp.spanId = i := spansGet_spanId hget
    simp [handleSpanClose, getTargetSpan, hget, spansGet_spansSet, hsp]
  · intro st ts ctx o cpu wall root hroot
    simp [handleOutcomeMutate, hroot, spansGet_spansSet]

/-- A span that already carries an `endTime`, for the C3 witness. -/
def spanEnd : OtelSpan := { spanW with endTime := some 42 }

/-- A converter state holding exactly `spanEnd`. -/
def stEnd : ConverterState := { otelEndpoint := defaultEndpoint, spans := [spanEnd] }

/-- Witness for C3 (amended): closing a span that already has endTime 42
overwrites it with the close event's timestamp. -/
theorem c3_endTime_assignment_witness :
    (spansGet (handleSpanClose stEnd 7 { traceId := "abc", spanId := some "1" }
        "ok").spans "1").map (fun sp => sp.endTime) = some (some (7 * 1000000)) :=
  c3_endTime_assignment.2.1 stEnd 7 "abc" "1" "ok" spanEnd rfl

/-- Counterexample to C3 as stated: after onset (span `"1"`) and a spanClose
that targets it (setting `endTime` to 2000000), the later outcome event —
also a close-equivalent event applying to the same span — overwrites the
already-set `endTime` with its own timestamp (3000000) while the span is
still in the table, and that overwritten value is what gets exported. -/
theorem c3_endTime_counterexample :
    ∃ st1 effs1 st2 effs2,
      handleEvents (Except.ok ()) initState
          [{ timestamp := 1
             spanContext := { traceId := "abc", spanId := none }
             event := .onset (onsetCustom "1") },
           { timestamp := 2
             spanContext := { traceId := "abc", spanId := some "1" }
             event := .spanClose "ok" }] = .ok (st1, effs1) ∧
      (spansGet st1.spans "1").map (fun sp => sp.endTime) = some (some 2000000) ∧
      handleEvent (Except.ok ()) st1
          { timestamp := 3
            spanContext := { traceId := "abc", spanId := none }
            event := .outcome "ok" 5 10 } = .ok (st2, effs2) ∧
      (sentSpans effs2).map (fun sp => sp.endTimeUnixNano) = [some "3000000"] := by
  exact ⟨_, _, _, _, rfl, rfl, rfl, rfl⟩

/-- Scenario A from the spec: onset(trace "abc", span "1") → spanOpen(span
"2", name "child", context current-span "1") → spanClose(span "2", outcome
"ok") → outcome("ok", cpuTime 5, wallTime 10). -/
def scenarioA : List TailEvent :=
  [{ timestamp := 1
     spanContext := { traceId := "abc", spanId := none }
     event := .onset (onsetCustom "1") },
   { timestamp := 2
     spanContext := { traceId := "abc", spanId := some "1" }
     event := .spanOpen { spanId := "2", name := "child", info := none } },
   { timestamp := 3
     spanContext := { traceId := "abc", spanId := some "2" }
     event := .spanClose "ok" },
   { timestamp := 4
     spanContext := { traceId := "abc", spanId := none }
     event := .outcome "ok" 5 10 }]

/-- C1: running Scenario A exports exactly one payload containing exactly
two spans; the child span's `parentSpanId` resolves (padded) to span `"1"`;
the root span's status code is OK and its exported attributes carry
`cpu.time.ms = 5` and `wall.time.ms = 10` as integer values. -/
theorem c1_scenarioA :
    ∃ st effs,
      handleEvents (Except.ok ()) initState scenarioA = .ok (st, effs) ∧
      effs.sent.length = 1 ∧
      (sentSpans effs).map (fun sp => (sp.spanId, sp.parentSpanId)) =
        [(padHex "1" 16, none), (padHex "2" 16, some (padHex "1" 16))] ∧
      ((sentSpans effs).head?.bind (fun sp => sp.status)).map (fun s => s.code) =
        some .ok ∧
      ((sentSpans effs).head?.map (fun sp => attrLookup sp.attributes "cpu.time.ms")) =
        some (some (.intValue "5")) ∧
      ((sentSpans effs).head?.map (fun sp => attrLookup sp.attributes "wall.time.ms")) =
        some (some (.intValue "10")) := by
  exact ⟨_, _, rfl, rfl, rfl, rfl, rfl, rfl⟩

end StwOtel
